import Mathlib

/-!
Verification of the OpenSO2 flux-retrieval pipeline (`openso2/gui_funcs.py`).

This file gives a shallow embedding of the pipeline functions
`filter_scan`, `get_local_scans`, `find_nearest_scan` and the per-scan body of
`calculate_fluxes`, and proves or refutes the frozen claims about them.

Modelling conventions:
* Python floats are modelled as rationals (`ℚ`); all comparisons in the source
  are order comparisons, which floats and rationals agree on for the values in
  scope.
* `datetime` values are modelled by a `Timestamp` record; subtraction and
  ordering go through a proleptic-Gregorian day count, exactly the arithmetic
  Python's `datetime` performs (Python ignores leap seconds as well).
* Scan files (`xarray` datasets / `pandas` frames) are modelled uniformly by a
  `ScanData` record of parallel columns, plus the mutable `filter` column that
  `filter_scan` writes.  The file system is a function argument
  (`listdir`, `readScan`); a Python exception escaping the pipeline is
  modelled as `Option.none`.
* The two functions of `openso2/plume.py` (`calc_plume_altitude`,
  `calc_scan_flux`) are not part of the provided sources; no claim depends on
  their values, so they are taken as opaque parameters in `Env`.
-/

set_option maxRecDepth 100000

/- The Batteries rational-number operations are `@[irreducible]`, which blocks
the `decide`-based evaluation of the concrete pipeline runs below; restoring
default reducibility lets those evaluations reduce (the kernel re-checks every
such proof by plain reduction in any case). -/
set_option allowUnsafeReducibility true
attribute [semireducible] Rat.add Rat.mul Rat.sub Rat.neg Rat.inv

namespace OpenSO2

/-- `optMap f l` models a Python loop that applies a fallible step to each
element in order; any failure (exception) aborts the whole loop. -/
def optMap (f : α → Option β) : List α → Option (List β)
  | [] => some []
  | a :: l =>
    match f a, optMap f l with
    | some b, some l' => some (b :: l')
    | _, _ => none

/-- Index of the first maximal element, as `numpy.argmax` computes it
(`0` on the empty list, where numpy raises instead; callers guard emptiness). -/
def argmaxIdx : List ℚ → ℕ
  | [] => 0
  | [_] => 0
  | a :: b :: l =>
    let j := argmaxIdx (b :: l)
    if a < (b :: l).getD j 0 then j + 1 else 0

/-- Index of the first minimal element, as `numpy.argmin` computes it
(`0` on the empty list, where numpy raises instead; callers guard emptiness). -/
def argminIdx [LinearOrder α] (d : α) : List α → ℕ
  | [] => 0
  | [_] => 0
  | a :: b :: l =>
    let j := argminIdx d (b :: l)
    if (b :: l).getD j d < a then j + 1 else 0

/-- Boolean-mask selection `xs[mask]` of numpy. -/
def maskSelect (xs : List ℚ) (m : List Bool) : List ℚ :=
  ((xs.zip m).filter (fun p => p.2)).map (fun p => p.1)

/-- Numeric value of a numpy boolean, as used when a boolean array is compared
against a float scalar. -/
def boolVal (b : Bool) : ℚ := if b then 1 else 0

/-- A `datetime.datetime` value (microseconds are always zero here). -/
structure Timestamp where
  year : ℕ
  month : ℕ
  day : ℕ
  hour : ℕ
  minute : ℕ
  second : ℕ
deriving DecidableEq, Repr

/-- Proleptic-Gregorian day count (shifted era-based "days from civil"
computation, valid for years ≥ 1; Python's `datetime` range starts at year 1).
Only differences and order of the results are ever used. -/
def daysFromCivil (y m d : ℕ) : ℕ :=
  let y' := if m ≤ 2 then y - 1 else y
  let era := y' / 400
  let yoe := y' % 400
  let mp := (m + 9) % 12
  let doy := (153 * mp + 2) / 5 + d - 1
  let doe := yoe * 365 + yoe / 4 - yoe / 100 + doy
  era * 146097 + doe

/-- Second count underlying `datetime` subtraction and comparison. -/
def Timestamp.toSeconds (t : Timestamp) : ℕ :=
  86400 * daysFromCivil t.year t.month t.day + 3600 * t.hour + 60 * t.minute + t.second

/-- `abs(t1 - t2).total_seconds()` for two datetimes. -/
def tsDelta (t1 t2 : Timestamp) : ℕ :=
  ((t1.toSeconds : ℤ) - (t2.toSeconds : ℤ)).natAbs

def digitVal (c : Char) : ℕ := c.toNat - 48

def allDigits (l : List Char) : Bool := l.all Char.isDigit

def natOfDigits (l : List Char) : ℕ := l.foldl (fun a c => 10 * a + digitVal c) 0

def isLeapYear (y : ℕ) : Bool := (y % 4 == 0 && y % 100 != 0) || y % 400 == 0

def daysInMonth (y m : ℕ) : ℕ :=
  if m = 2 then (if isLeapYear y then 29 else 28)
  else if m = 4 ∨ m = 6 ∨ m = 9 ∨ m = 11 then 30
  else 31

/-- Range validation performed by the `datetime` constructor after `strptime`
matching (seconds 60/61 accepted by the `%S` pattern are rejected here, as the
constructor does). -/
def mkTimestamp (y mo d h mi s : ℕ) : Option Timestamp :=
  if 1 ≤ y ∧ y ≤ 9999 ∧ 1 ≤ mo ∧ mo ≤ 12 ∧ 1 ≤ d ∧ d ≤ daysInMonth y mo
      ∧ h ≤ 23 ∧ mi ≤ 59 ∧ s ≤ 59 then
    some (Timestamp.mk y mo d h mi s)
  else none

/-- Model of `datetime.strptime(s, '%Y%m%d_%H%M%S')` on the two fixed-width
shapes the pipeline feeds it: 4-digit year, 2-digit month/day, `'_'`, 2-digit
hour/minute, then the seconds field, which the `%S` pattern matches greedily as
two digits when two remain and as one digit when only one remains (exactly what
happens to a 14-character slice of a `YYYYMMDD_HHMMSS` name).  Any other shape
is not produced by the pipeline and is mapped to `none` (a `ValueError`). -/
def strptime_YmdHMS (s : String) : Option Timestamp :=
  match s.toList with
  | [y1, y2, y3, y4, o1, o2, d1, d2, u, h1, h2, n1, n2, s1, s2] =>
    if u = '_' ∧ allDigits [y1, y2, y3, y4, o1, o2, d1, d2, h1, h2, n1, n2, s1, s2] = true then
      mkTimestamp (natOfDigits [y1, y2, y3, y4]) (natOfDigits [o1, o2]) (natOfDigits [d1, d2])
        (natOfDigits [h1, h2]) (natOfDigits [n1, n2]) (natOfDigits [s1, s2])
    else none
  | [y1, y2, y3, y4, o1, o2, d1, d2, u, h1, h2, n1, n2, s1] =>
    if u = '_' ∧ allDigits [y1, y2, y3, y4, o1, o2, d1, d2, h1, h2, n1, n2, s1] = true then
      mkTimestamp (natOfDigits [y1, y2, y3, y4]) (natOfDigits [o1, o2]) (natOfDigits [d1, d2])
        (natOfDigits [h1, h2]) (natOfDigits [n1, n2]) (natOfDigits [s1])
    else none
  | _ => none

/-- Split a character list at every occurrence of `c` (kernel-computable
counterpart of `String.splitOn` for a one-character separator). -/
def splitChar (c : Char) : List Char → List (List Char)
  | [] => [[]]
  | a :: l =>
    match splitChar c l with
    | [] => [[]]
    | h :: t => if a = c then [] :: h :: t else (a :: h) :: t

/-- `os.path.split(p)[1]`: the component after the last separator. -/
def basename (p : String) : String := String.mk ((splitChar '/' p.toList).getLastD [])

/-- Python slice `s[:n]`. -/
def strSlice (s : String) (n : ℕ) : String := String.mk (s.toList.take n)

/-- The columns of one scan file that the pipeline consumes (`angle`, `SO2`,
`SO2_err`, `int_av`), plus the `filter` column that `filter_scan` writes into
the dataset.  A freshly read scan has `filter = none`. -/
structure ScanData where
  angle : List ℚ
  so2 : List ℚ
  so2_err : List ℚ
  int_av : List ℚ
  filter : Option (List Bool) := none
deriving DecidableEq, Repr

/-- Outcome of `filter_scan`: the source returns `(None, None, msg)` on a
rejection and `(scan_da, peak_angle, 'Scan analysed')` on success; a Python
exception raised inside the call is `error`. -/
inductive FilterVerdict where
  | rejected (msg : String)
  | analysed (peak : ℚ)
  | error
deriving DecidableEq, Repr

/-- The per-sample reject mask of `filter_scan` (lines 398-403):
`SO2 < min_scd` or `SO2 > max_scd` or `int_av < min_int` or `int_av > max_int`. -/
def rejectMask (scan : ScanData) (min_scd max_scd min_int max_int : ℚ) : List Bool :=
  (scan.so2.zip scan.int_av).map fun p =>
    decide (p.1 < min_scd) || decide (p.1 > max_scd)
      || decide (p.2 < min_int) || decide (p.2 > max_int)

/-- The keep mask `filter_idx` of `filter_scan` (lines 408-416):
all of `SO2 > min_scd`, `SO2 < max_scd`, `int_av > min_int`, `int_av < max_int`. -/
def keepMask (scan : ScanData) (min_scd max_scd min_int max_int : ℚ) : List Bool :=
  (scan.so2.zip scan.int_av).map fun p =>
    decide (p.1 > min_scd) && decide (p.1 < max_scd)
      && decide (p.2 > min_int) && decide (p.2 < max_int)

/-- Laplace expansion along the first row, with a structural fuel argument
(the fuel is the row count, so it never runs out). -/
def detQAux : ℕ → List (List ℚ) → ℚ
  | _, [] => 1
  | 0, _ => 1
  | n + 1, r :: rs =>
    ((List.range r.length).map fun j =>
      (-1 : ℚ) ^ j * r.getD j 0 * detQAux n (rs.map fun row => row.eraseIdx j)).sum

/-- Determinant of a rational matrix (rows as lists). -/
def detQ (m : List (List ℚ)) : ℚ := detQAux m.length m

/-- Replace column `j` of a square matrix by the vector `b` (for Cramer's rule). -/
def replaceCol (m : List (List ℚ)) (j : ℕ) (b : List ℚ) : List (List ℚ) :=
  (m.zip b).map fun p => p.1.set j p.2

/-- The FIR coefficients of the Savitzky-Golay filter of (odd) window `w` and
polynomial order `p` used by `scipy.signal.savgol_filter`: a least-squares fit
of a degree-`p` polynomial over the window offsets `-w/2 .. w/2`, evaluated at
the centre.  The Gram system is solved exactly by Cramer's rule.  (For
smoothing, i.e. zeroth derivative, the kernel is symmetric, so the convolution
/ correlation orientation is immaterial.) -/
def savgolCoeffs (w p : ℕ) : List ℚ :=
  let half : ℕ := w / 2
  let pos : List ℤ := (List.range w).map fun j => (j : ℤ) - (half : ℤ)
  let gram : List (List ℚ) := (List.range (p + 1)).map fun a =>
    (List.range (p + 1)).map fun b => (pos.map fun t => (t : ℚ) ^ (a + b)).sum
  let e0 : List ℚ := (List.range (p + 1)).map fun a => if a = 0 then 1 else 0
  let d := detQ gram
  let z : List ℚ := (List.range (p + 1)).map fun a => detQ (replaceCol gram a e0) / d
  pos.map fun t => ((List.range (p + 1)).map fun a => z.getD a 0 * (t : ℚ) ^ a).sum

/-- `scipy.signal.savgol_filter(y, w, p, mode='nearest')`: the window slides
over `y` extended by edge-value replication (`nearest`). -/
def savgol (w p : ℕ) (y : List ℚ) : List ℚ :=
  let h := savgolCoeffs w p
  let half := w / 2
  let ypad := List.replicate half (y.headD 0) ++ y ++ List.replicate half (y.getLastD 0)
  (List.range y.length).map fun i =>
    ((List.range w).map fun k => h.getD k 0 * ypad.getD (i + k) 0).sum

/-- Number of entries of the boolean keep mask that compare below `plume_scd`
(line 422: `nplume = sum(filter_idx < plume_scd)` -- numpy compares the
*booleans*, valued 0/1, against the threshold). -/
def nplumeCount (filter_idx : List Bool) (plume_scd : ℚ) : ℕ :=
  (filter_idx.filter fun b => decide (boolVal b < plume_scd)).length

/-- Whether the low-signal gate of `filter_scan` fires (line 405):
`len(np.where(mask)[0]) > good_scan_lim * len(scan_da['SO2'])`. -/
def lowSignalGate (scan : ScanData)
    (min_scd max_scd min_int max_int good_scan_lim : ℚ) : Prop :=
  ((rejectMask scan min_scd max_scd min_int max_int).count true : ℚ)
    > good_scan_lim * (scan.so2.length : ℚ)

instance (scan : ScanData) (a b c d e : ℚ) :
    Decidable (lowSignalGate scan a b c d e) := by
  unfold lowSignalGate; infer_instance

/-- `filter_scan(scan_da, ...)` of `gui_funcs.py` lines 394-433.  The first
component is the state of the caller's dataset after the call (the source
mutates `scan_da` in place by writing the `filter` column at line 417); the
second is the returned verdict.  `error` covers the exceptions scipy/numpy
raise in lines 430-431 (even window, order not below the window, or an empty
kept sample set). -/
def filter_scan (scan_da : ScanData)
    (min_scd max_scd min_int max_int plume_scd good_scan_lim : ℚ)
    (sg_window sg_polyn : ℕ) : ScanData × FilterVerdict :=
  if lowSignalGate scan_da min_scd max_scd min_int max_int good_scan_lim then
    (scan_da, .rejected "Not enough good spectra")
  else
    let filter_idx := keepMask scan_da min_scd max_scd min_int max_int
    let scan2 : ScanData := { scan_da with filter := some filter_idx }
    if nplumeCount filter_idx plume_scd < 10 then
      (scan2, .rejected "Not enough plume spectra")
    else
      let x := maskSelect scan2.angle filter_idx
      let y := maskSelect scan2.so2 filter_idx
      if sg_window % 2 = 0 ∨ sg_window ≤ sg_polyn ∨ y = [] then
        (scan2, .error)
      else
        (scan2, .analysed (x.getD (argmaxIdx (savgol sg_window sg_polyn y)) 0))

/-- One catalog entry: station name, scan file paths, scan timestamps
(parallel lists). -/
abbrev CatalogEntry := String × List String × List Timestamp

/-- The per-station so2 directory `f'{fpath}/{name}/so2/'`. -/
def scanDir (fpath name : String) : String := fpath ++ "/" ++ name ++ "/so2/"

/-- The body of the `get_local_scans` loop for one station (lines 459-470):
`os.listdir` is the `listdir` argument (`none` models `FileNotFoundError`,
which the source catches, yielding empty lists); a filename whose first 14
characters do not parse raises `ValueError`, which is *not* caught, so it
aborts the whole call (`none` result). -/
def localScansFor (fpath : String) (listdir : String → Option (List String))
    (name : String) : Option CatalogEntry :=
  match listdir (scanDir fpath name) with
  | none => some (name, [], [])
  | some fs =>
    match optMap (fun f => strptime_YmdHMS (strSlice f 14)) fs with
    | none => none
    | some ts => some (name, fs.map (fun f => scanDir fpath name ++ f), ts)

/-- `get_local_scans(stations, fpath)` of lines 436-472: one catalog entry per
station, in station-registry order. -/
def get_local_scans (stations : List String) (fpath : String)
    (listdir : String → Option (List String)) : Option (List CatalogEntry) :=
  optMap (localScansFor fpath listdir) stations

/-- `find_nearest_scan(station_name, scan_time, scan_fnames, scan_times)` of
lines 475-530.  For every *other* station with at least one scan it records
that station's nearest scan by absolute time delta (`np.argmin` over the
deltas, first minimum on ties); it then selects among these candidates with
`np.argmin(nearest_scan_times)` -- an argmin over the *timestamps themselves*,
i.e. the chronologically earliest candidate, exactly as the source computes it
at line 522. -/
def find_nearest_scan (station_name : String) (scan_time : Timestamp)
    (catalog : List CatalogEntry) : Option (String × Timestamp × String) :=
  let nearest : List (String × Timestamp × String) :=
    catalog.filterMap fun ent =>
      if ent.1 = station_name ∨ ent.2.1.length = 0 then none
      else
        let delta_times := ent.2.2.map fun t => tsDelta t scan_time
        let min_idx := argminIdx 0 delta_times
        some (ent.2.1.getD min_idx "", ent.2.2.getD min_idx (Timestamp.mk 0 0 0 0 0 0), ent.1)
  match nearest with
  | [] => none
  | _ =>
    let idx := argminIdx 0 (nearest.map fun c => c.2.1.toSeconds)
    some (nearest.getD idx ("", Timestamp.mk 0 0 0 0 0 0, ""))

/-- The external collaborators of `calculate_fluxes`: the scan-file reader
(`xr.open_dataset` at line 299 and `pd.read_csv` at line 339 are both modelled
by `readScan`), and the two functions of `openso2/plume.py`, which are not
part of the provided sources and are therefore opaque parameters:
`calcPlumeAltitude station alt_station peak alt_peak = (plume_alt, plume_az)`
(vent location and default altitude are closed over) and
`calcScanFlux angles so2 so2_err station wind plume_alt plume_az
= (flux_amt, flux_err)` (vent location closed over). -/
structure Env where
  readScan : String → ScanData
  calcPlumeAltitude : String → String → ℚ → ℚ → ℚ × ℚ
  calcScanFlux : List ℚ → List ℚ → List ℚ → String → ℚ → ℚ → ℚ → ℚ × ℚ

/-- The configuration surface of `calculate_fluxes` (keyword defaults of
lines 274-277 are the Lean field defaults). -/
structure Config where
  default_alt : ℚ
  default_az : ℚ
  wind_speed : ℚ
  scan_pair_time : ℚ
  scan_pair_flag : Bool
  min_scd : ℚ := -(10 ^ 17)
  max_scd : ℚ := 10 ^ 20
  min_int : ℚ := 500
  max_int : ℚ := 60000
  plume_scd : ℚ := 10 ^ 17
  good_scan_lim : ℚ := 1 / 5
  sg_window : ℕ := 11
  sg_polyn : ℕ := 3

/-- One row of the per-station flux table (columns of line 290-293).  A cell
holding Python `None` is `Option.none`; note that the `Pair File` cell of an
analysed row always holds a string -- the placeholder `'None'` when there is
no pair (line 385 applies `os.path.split` to the string `'None'`). -/
structure FluxRow where
  time : Option Timestamp
  scanFile : Option String
  pairStation : Option String
  pairFile : Option String
  flux : Option ℚ
  fluxErr : Option ℚ
  plumeAlt : Option ℚ
  plumeAz : Option ℚ
  windSpeed : Option ℚ
deriving DecidableEq, Repr

/-- Shorthand for `filter_scan` applied with the configuration values, as the
calls at lines 302-305 and 342-345 pass them. -/
def filterScanCfg (cfg : Config) (scan : ScanData) : ScanData × FilterVerdict :=
  filter_scan scan cfg.min_scd cfg.max_scd cfg.min_int cfg.max_int cfg.plume_scd
    cfg.good_scan_lim cfg.sg_window cfg.sg_polyn

/-- The completed row for an analysed scan (lines 368-387): mask the angle,
`SO2` and `SO2_err` columns with the stored `filter` column, call
`calc_scan_flux`, and assemble the row. -/
def analysedRow (env : Env) (cfg : Config) (name : String) (scan_time : Timestamp)
    (scan_fname : String) (msk : ScanData) (pairStationName : Option String)
    (near_fname : String) (plume_alt plume_az : ℚ) : FluxRow :=
  let filter_idx := msk.filter.getD []
  let fluxPair := env.calcScanFlux (maskSelect msk.angle filter_idx)
    (maskSelect msk.so2 filter_idx) (maskSelect msk.so2_err filter_idx)
    name cfg.wind_speed plume_alt plume_az
  { time := some scan_time
    scanFile := some (basename scan_fname)
    pairStation := pairStationName
    pairFile := some (basename near_fname)
    flux := some fluxPair.1
    fluxErr := some fluxPair.2
    plumeAlt := some plume_alt
    plumeAz := some plume_az
    windSpeed := some cfg.wind_speed }

/-- The row of a scan whose `filter_scan` verdict is a rejection (lines
311-316): timestamp and bare filename, every other cell `None`. -/
def rejectedRow (scan_time : Timestamp) (scan_fname : String) : FluxRow :=
  { time := some scan_time
    scanFile := some (basename scan_fname)
    pairStation := none
    pairFile := none
    flux := none
    fluxErr := none
    plumeAlt := none
    plumeAz := none
    windSpeed := none }

/-- The pairing decision for an analysed scan (lines 318-366), resulting in
the pair-station cell, the `near_fname` string and the plume geometry; `none`
models an exception raised while filtering the candidate scan. -/
def resolvePairing (env : Env) (cfg : Config) (name : String)
    (scan_time : Timestamp) (catalog : List CatalogEntry) (peak : ℚ) :
    Option (Option String × String × ℚ × ℚ) :=
  let near := if cfg.scan_pair_flag then find_nearest_scan name scan_time catalog
              else none
  match near with
  | none => some (none, "None", cfg.default_alt, cfg.default_az)
  | some (near_fname, near_ts, alt_name) =>
    if ((scan_time.toSeconds : ℤ) - (near_ts.toSeconds : ℤ) : ℚ)
        < 60 * cfg.scan_pair_time ∧ cfg.scan_pair_flag = true then
      match (filterScanCfg cfg (env.readScan near_fname)).2 with
      | .error => none
      | .rejected _ => some (none, "None", cfg.default_alt, cfg.default_az)
      | .analysed alt_peak =>
        let geom := env.calcPlumeAltitude name alt_name peak alt_peak
        some (some alt_name, near_fname, geom.1, geom.2)
    else some (none, "None", cfg.default_alt, cfg.default_az)

/-- The body of the per-scan loop of `calculate_fluxes` (lines 296-387) for
one scan file.  `none` models a Python exception escaping the loop body
(unparsable timestamp, or an exception inside `filter_scan`), which aborts
the whole flux calculation. -/
def process_scan (env : Env) (cfg : Config) (name : String)
    (catalog : List CatalogEntry) (scan_fname : String) : Option FluxRow :=
  let fr := filterScanCfg cfg (env.readScan scan_fname)
  match strptime_YmdHMS (strSlice (basename scan_fname) 14) with
  | none => none
  | some scan_time =>
    match fr.2 with
    | .error => none
    | .rejected _ => some (rejectedRow scan_time scan_fname)
    | .analysed peak =>
      match resolvePairing env cfg name scan_time catalog peak with
      | none => none
      | some (pairStationName, near_fname, plume_alt, plume_az) =>
        some (analysedRow env cfg name scan_time scan_fname fr.1 pairStationName
          near_fname plume_alt plume_az)

/-- The flux table of one station: one row per entry of `scans[name]`, built
by `flux_df.iloc[i] = row` over `enumerate(scans[name])` (lines 290-387). -/
def station_table (env : Env) (cfg : Config) (name : String)
    (catalog : List CatalogEntry) (scanList : List String) : Option (List FluxRow) :=
  optMap (process_scan env cfg name catalog) scanList

/-- `calculate_fluxes(stations, scans, fpath, ...)` of lines 274-391: fetch
the day's catalog with `get_local_scans`, then build one flux table per
station over that station's entries in the `scans` argument.  `none` models a
Python exception aborting the call (in the source it propagates to the worker,
so no table at all is produced). -/
def calculate_fluxes (stations : List String) (scans : String → List String)
    (env : Env) (cfg : Config) (fpath : String)
    (listdir : String → Option (List String)) :
    Option (List (String × List FluxRow)) :=
  match get_local_scans stations fpath listdir with
  | none => none
  | some catalog =>
    optMap (fun name =>
      match station_table env cfg name catalog (scans name) with
      | none => none
      | some t => some (name, t)) stations

/-- Python dict lookup `scans[name]` for a catalog produced by
`get_local_scans` (the callers pass that dictionary as the `scans`
argument). -/
def catFnames (catalog : List CatalogEntry) (name : String) : List String :=
  ((catalog.find? fun ent => ent.1 = name).map fun ent => ent.2.1).getD []

/-! Concrete fixtures used by witnesses, counterexamples and failing-input
evaluations.  The smoothing window/order is configured as `1`/`0` (an identity
smoothing) to keep the exact arithmetic small; both are ordinary parameters of
`calculate_fluxes`. -/

/-- A ten-sample scan, all samples inside every quality bound, with a unique
SO2 maximum at angle `3`. -/
def goodScan : ScanData :=
  { angle := [0, 1, 2, 3, 4, 5, 6, 7, 8, 9]
    so2 := [5 * 10 ^ 17, 5 * 10 ^ 17, 5 * 10 ^ 17, 8 * 10 ^ 17, 5 * 10 ^ 17,
            5 * 10 ^ 17, 5 * 10 ^ 17, 5 * 10 ^ 17, 5 * 10 ^ 17, 5 * 10 ^ 17]
    so2_err := [10 ^ 15, 10 ^ 15, 10 ^ 15, 10 ^ 15, 10 ^ 15,
                10 ^ 15, 10 ^ 15, 10 ^ 15, 10 ^ 15, 10 ^ 15]
    int_av := [1000, 1000, 1000, 1000, 1000, 1000, 1000, 1000, 1000, 1000]
    filter := none }

/-- A ten-sample scan with three samples below the intensity bound
(3/10 = 30% rejected, above the 20% limit): low-signal rejected. -/
def badScan : ScanData :=
  { angle := [0, 1, 2, 3, 4, 5, 6, 7, 8, 9]
    so2 := [5 * 10 ^ 17, 5 * 10 ^ 17, 5 * 10 ^ 17, 8 * 10 ^ 17, 5 * 10 ^ 17,
            5 * 10 ^ 17, 5 * 10 ^ 17, 5 * 10 ^ 17, 5 * 10 ^ 17, 5 * 10 ^ 17]
    so2_err := [10 ^ 15, 10 ^ 15, 10 ^ 15, 10 ^ 15, 10 ^ 15,
                10 ^ 15, 10 ^ 15, 10 ^ 15, 10 ^ 15, 10 ^ 15]
    int_av := [100, 100, 100, 1000, 1000, 1000, 1000, 1000, 1000, 1000]
    filter := none }

/-- The configuration used by the fixtures: pairing disabled, identity
smoothing window, everything else at the source's keyword defaults. -/
def cCfg : Config :=
  { default_alt := 2000
    default_az := 270
    wind_speed := 10
    scan_pair_time := 5
    scan_pair_flag := false
    sg_window := 1
    sg_polyn := 0 }

/-- The fixture configuration with scan pairing enabled. -/
def cCfgPair : Config := { cCfg with scan_pair_flag := true }

def fnameA : String := "res/20240101/A/so2/20240101_100000.nc"

def fnameBfar : String := "res/20240101/B/so2/20240101_114000.nc"

def fnameBnear : String := "res/20240101/B/so2/20240101_100100.nc"

def ts1000 : Timestamp := Timestamp.mk 2024 1 1 10 0 0

def ts1140 : Timestamp := Timestamp.mk 2024 1 1 11 40 0

def ts1001 : Timestamp := Timestamp.mk 2024 1 1 10 1 0

/-- Environment in which every file reads as the good scan; the opaque plume
functions return recognizable constants. -/
def cEnv : Env :=
  { readScan := fun _ => goodScan
    calcPlumeAltitude := fun _ _ _ _ => (1234, 55)
    calcScanFlux := fun _ _ _ _ _ _ _ => (7, 2) }

/-- Environment in which station B's scan file reads as the low-signal
rejected scan. -/
def cEnvBbad : Env :=
  { cEnv with readScan := fun f => if f = fnameBnear then badScan else goodScan }

/-- Catalog for the pairing scenarios: station A with its 10:00:00 scan,
station B with a single 11:40:00 scan (100 minutes in the future). -/
def cCatFar : List CatalogEntry :=
  [("A", [fnameA], [ts1000]), ("B", [fnameBfar], [ts1140])]

/-- Catalog in which B's only scan is at 10:01:00 (60 s away). -/
def cCatNear : List CatalogEntry :=
  [("A", [fnameA], [ts1000]), ("B", [fnameBnear], [ts1001])]

def ts0900 : Timestamp := Timestamp.mk 2024 1 1 9 0 0

/-- Catalog for the pair-finder scenario: the query station S, station A with
one scan 60 minutes before the query time, station B with one scan 60 seconds
after it. -/
def cCatC2 : List CatalogEntry :=
  [("S", ["res/20240101/S/so2/20240101_100000.nc"], [ts1000]),
   ("A", ["res/20240101/A/so2/20240101_090000.nc"], [ts0900]),
   ("B", [fnameBnear], [ts1001])]

/-- Environment in which every scan file reads as the low-signal scan. -/
def cEnvBad : Env := { cEnv with readScan := fun _ => badScan }

/-- The good scan after `filter_scan` has written its all-true keep mask. -/
def goodScanPost : ScanData :=
  { goodScan with
    filter := some [true, true, true, true, true, true, true, true, true, true] }

def cFpath : String := "res/20240101"

def cListdir6 : String → Option (List String) := fun d =>
  if d = scanDir cFpath "A" then some ["20240101_100000.nc"]
  else if d = scanDir cFpath "B" then some ["20240101_100100.nc"]
  else none

/-- The catalog that `get_local_scans` produces from `cListdir6`. -/
def cCat6 : List CatalogEntry :=
  [("A", [fnameA], [ts1000]), ("B", [fnameBnear], [ts1001])]

/-- `listdir` with station A present and station B's directory missing. -/
def cListdir8 : String → Option (List String) := fun d =>
  if d = scanDir cFpath "A" then some ["20240101_100000.nc"] else none

/-- `listdir` that agrees with `cListdir8` on station A's directory but not on
station B's. -/
def cListdir8b : String → Option (List String) := fun d =>
  if d = scanDir cFpath "A" then some ["20240101_100000.nc"] else some []

def cListdir7 : String → Option (List String) := fun d =>
  if d = scanDir cFpath "A" then some ["20240101_123456.nc"] else none

/-- The row produced for station A's scan when its in-window candidate is
quality-rejected: default geometry, null pair station, placeholder pair file. -/
def cRow9 : FluxRow :=
  analysedRow cEnvBbad cCfgPair "A" ts1000 fnameA goodScanPost none "None" 2000 270

/-! Helper lemmas. -/

theorem optMap_length {α β : Type} (f : α → Option β) (l : List α) :
    ∀ l2, optMap f l = some l2 → l2.length = l.length := by
  induction l with
  | nil =>
    intro l2 h
    simp only [optMap, Option.some.injEq] at h
    subst h
    rfl
  | cons a t ih =>
    intro l2 h
    simp only [optMap] at h
    cases hfa : f a with
    | none => rw [hfa] at h; simp at h
    | some b =>
      rw [hfa] at h
      cases hot : optMap f t with
      | none => rw [hot] at h; simp at h
      | some t2 =>
        rw [hot] at h
        simp only [Option.some.injEq] at h
        subst h
        simp [ih t2 hot]

theorem optMap_mem {α β : Type} (f : α → Option β) (l : List α) :
    ∀ l2 b, optMap f l = some l2 → b ∈ l2 → ∃ a, a ∈ l ∧ f a = some b := by
  induction l with
  | nil =>
    intro l2 b h hb
    simp only [optMap, Option.some.injEq] at h
    subst h
    simp at hb
  | cons a t ih =>
    intro l2 b h hb
    simp only [optMap] at h
    cases hfa : f a with
    | none => rw [hfa] at h; simp at h
    | some b0 =>
      rw [hfa] at h
      cases hot : optMap f t with
      | none => rw [hot] at h; simp at h
      | some t2 =>
        rw [hot] at h
        simp only [Option.some.injEq] at h
        subst h
        rcases List.mem_cons.mp hb with hb0 | hbt
        · exact ⟨a, List.mem_cons_self a t, hb0 ▸ hfa⟩
        · obtain ⟨a2, ha2, hfa2⟩ := ih t2 b hot hbt
          exact ⟨a2, List.mem_cons_of_mem a ha2, hfa2⟩

theorem argmaxIdx_le (l : List ℚ) :
    ∀ j, j < l.length → l.getD j 0 ≤ l.getD (argmaxIdx l) 0 := by
  induction l with
  | nil => intro j hj; simp at hj
  | cons a t ih =>
    cases t with
    | nil =>
      intro j hj
      simp only [List.length_cons, List.length_nil] at hj
      interval_cases j
      · simp [argmaxIdx]
    | cons b r =>
      intro j hj
      by_cases hlt : a < (b :: r).getD (argmaxIdx (b :: r)) 0
      · have hx : argmaxIdx (a :: b :: r) = argmaxIdx (b :: r) + 1 := by
          simp only [argmaxIdx, if_pos hlt]
        rw [hx]
        cases j with
        | zero => simpa using le_of_lt hlt
        | succ k =>
          simp only [List.getD_cons_succ]
          exact ih k (by simpa using hj)
      · have hx : argmaxIdx (a :: b :: r) = 0 := by
          simp only [argmaxIdx, if_neg hlt]
        rw [hx]
        cases j with
        | zero => simp
        | succ k =>
          simp only [List.getD_cons_succ, List.getD_cons_zero]
          exact le_trans (ih k (by simpa using hj)) (not_lt.mp hlt)

/-- The row produced for station A's scan in the far-future-candidate
scenario: the code pairs with B and uses the triangulated geometry. -/
def cRow1 : FluxRow :=
  analysedRow cEnv cCfgPair "A" ts1000 fnameA goodScanPost (some "B") fnameBfar 1234 55

/-! The claims. -/

/-- C1 (code-bug evaluation): the pairing window test at line 336 compares the
*signed* difference `scan_time - near_ts` against `timedelta(minutes=scan_pair_time)`
without `abs()`.  At this input the candidate is 6000 s (100 min) in the
future, so its absolute time delta is far above the 5-minute window and the
claim requires the default-geometry path with empty pair fields; the signed
difference is -6000 s, which passes the test, so the code resolves a real pair
with triangulated geometry and a filled Pair Station cell. -/
theorem C1_signed_window_eval :
    tsDelta ts1000 ts1140 = 6000 ∧
    ¬ ((tsDelta ts1000 ts1140 : ℚ) < 60 * cCfgPair.scan_pair_time) ∧
    (filterScanCfg cCfgPair (cEnv.readScan fnameBfar)).2 = FilterVerdict.analysed 3 ∧
    process_scan cEnv cCfgPair "A" cCatFar fnameA = some cRow1 ∧
    cRow1.pairStation = some "B" ∧
    cRow1.plumeAlt = some 1234 ∧
    cCfgPair.default_alt = 2000 := by
  decide

/-- C2 (code-bug evaluation): `find_nearest_scan` selects among the
per-station nearest candidates with `np.argmin(nearest_scan_times)` (line
522), an argmin over the timestamps themselves.  Here station A's candidate is
3600 s away and station B's is 60 s away, yet the call returns station A's
scan because its timestamp is chronologically earliest, contradicting the
claimed global minimum by absolute time delta. -/
theorem C2_earliest_not_nearest_eval :
    find_nearest_scan "S" ts1000 cCatC2
      = some ("res/20240101/A/so2/20240101_090000.nc", ts0900, "A") ∧
    tsDelta ts0900 ts1000 = 3600 ∧ tsDelta ts1001 ts1000 = 60 := by
  decide

/-- C3 (code-bug evaluation): a ten-sample scan that passes the low-signal
gate and has *zero* kept samples with SO2 below the `plume_scd` threshold is
nevertheless analysed: line 422 computes `nplume = sum(filter_idx < plume_scd)`,
comparing the boolean keep mask (values 0/1) against `plume_scd = 1e17`, so
`nplume` is 10 (every mask entry) instead of 0, and the
`'Not enough plume spectra'` rejection demanded by the claim never fires. -/
theorem C3_plume_count_bug_eval :
    ((maskSelect goodScan.so2 (keepMask goodScan (-(10 ^ 17)) (10 ^ 20) 500 60000)).filter
        (fun v => decide (v < 10 ^ 17))).length = 0 ∧
    nplumeCount (keepMask goodScan (-(10 ^ 17)) (10 ^ 20) 500 60000) (10 ^ 17) = 10 ∧
    (filterScanCfg cCfg goodScan).2 = FilterVerdict.analysed 3 := by
  decide

/-- C4: a scan whose rejected-sample fraction strictly exceeds `good_scan_lim`
is rejected with `'Not enough good spectra'` (RejectedLowSignal), no further
processing happens, and its row holds the parsed timestamp and the bare scan
filename with every other cell null. -/
theorem C4_low_signal_reject (env : Env) (cfg : Config) (name : String)
    (catalog : List CatalogEntry) (scan_fname : String) (scan : ScanData)
    (t : Timestamp)
    (hread : env.readScan scan_fname = scan)
    (hn : 0 < scan.so2.length)
    (hfrac : cfg.good_scan_lim <
      ((rejectMask scan cfg.min_scd cfg.max_scd cfg.min_int cfg.max_int).count true : ℚ)
        / (scan.so2.length : ℚ))
    (ht : strptime_YmdHMS (strSlice (basename scan_fname) 14) = some t) :
    filterScanCfg cfg scan = (scan, FilterVerdict.rejected "Not enough good spectra") ∧
    process_scan env cfg name catalog scan_fname = some (rejectedRow t scan_fname) := by
  have hn' : (0 : ℚ) < (scan.so2.length : ℚ) := by exact_mod_cast hn
  have hgate : lowSignalGate scan cfg.min_scd cfg.max_scd cfg.min_int cfg.max_int
      cfg.good_scan_lim := by
    unfold lowSignalGate
    exact (lt_div_iff₀ hn').mp hfrac
  have hfs : filterScanCfg cfg scan
      = (scan, FilterVerdict.rejected "Not enough good spectra") := by
    unfold filterScanCfg filter_scan
    rw [if_pos hgate]
  refine ⟨hfs, ?_⟩
  simp only [process_scan, hread, hfs, ht]

/-- Witness for C4: a concrete ten-sample scan with 3 of 10 samples below the
intensity bound (30% > 20%) is low-signal rejected and produces the null row. -/
theorem C4_low_signal_reject_witness :
    filterScanCfg cCfg badScan = (badScan, FilterVerdict.rejected "Not enough good spectra") ∧
    process_scan cEnvBad cCfg "A" [] fnameA = some (rejectedRow ts1000 fnameA) :=
  C4_low_signal_reject cEnvBad cCfg "A" [] fnameA badScan ts1000
    (by decide) (by decide)
    (by decide) (by decide)

/-- C5: for every scan analysed by `filter_scan`, the returned peak angle is
the mask-selected angle at the first index where the Savitzky-Golay-smoothed
mask-selected SO2 values are maximal, and the smoothed value there dominates
every smoothed value (lines 427-431). -/
theorem C5_peak_angle (scan : ScanData)
    (min_scd max_scd min_int max_int plume_scd good_scan_lim : ℚ)
    (sg_window sg_polyn : ℕ) (post : ScanData) (peak : ℚ)
    (h : filter_scan scan min_scd max_scd min_int max_int plume_scd good_scan_lim
      sg_window sg_polyn = (post, FilterVerdict.analysed peak)) :
    peak = (maskSelect scan.angle (keepMask scan min_scd max_scd min_int max_int)).getD
        (argmaxIdx (savgol sg_window sg_polyn
          (maskSelect scan.so2 (keepMask scan min_scd max_scd min_int max_int)))) 0 ∧
    ∀ j < (savgol sg_window sg_polyn
        (maskSelect scan.so2 (keepMask scan min_scd max_scd min_int max_int))).length,
      (savgol sg_window sg_polyn
          (maskSelect scan.so2 (keepMask scan min_scd max_scd min_int max_int))).getD j 0
        ≤ (savgol sg_window sg_polyn
            (maskSelect scan.so2 (keepMask scan min_scd max_scd min_int max_int))).getD
            (argmaxIdx (savgol sg_window sg_polyn
              (maskSelect scan.so2 (keepMask scan min_scd max_scd min_int max_int)))) 0 := by
  refine ⟨?_, fun j hj => argmaxIdx_le _ j hj⟩
  simp only [filter_scan] at h
  split at h
  · simp at h
  · split at h
    · simp at h
    · split at h
      · simp at h
      · simp only [Prod.mk.injEq, FilterVerdict.analysed.injEq] at h
        exact h.2.symm

/-- Witness for C5 at a concrete analysed scan (identity smoothing window):
the peak angle 3 is the angle of the maximal smoothed SO2 value. -/
theorem C5_peak_angle_witness :
    (3 : ℚ) = (maskSelect goodScan.angle
        (keepMask goodScan (-(10 ^ 17)) (10 ^ 20) 500 60000)).getD
        (argmaxIdx (savgol 1 0 (maskSelect goodScan.so2
          (keepMask goodScan (-(10 ^ 17)) (10 ^ 20) 500 60000)))) 0 :=
  (C5_peak_angle goodScan (-(10 ^ 17)) (10 ^ 20) 500 60000 (10 ^ 17) (1 / 5) 1 0
    goodScanPost 3 (by decide)).1

/-- C6: whenever `calculate_fluxes` completes, every station's flux table has
exactly one row per entry of that station's scan list, and with the `scans`
argument the callers pass (the day's catalog from `get_local_scans`) the row
count equals the station's cataloged scan count, rejected scans included. -/
theorem C6_row_count (stations : List String) (scans : String → List String)
    (env : Env) (cfg : Config) (fpath : String)
    (listdir : String → Option (List String)) (catalog : List CatalogEntry)
    (results : List (String × List FluxRow)) (name : String) (table : List FluxRow)
    (hcat : get_local_scans stations fpath listdir = some catalog)
    (hres : calculate_fluxes stations scans env cfg fpath listdir = some results)
    (hmem : (name, table) ∈ results)
    (hagree : scans name = catFnames catalog name) :
    table.length = (catFnames catalog name).length := by
  simp only [calculate_fluxes, hcat] at hres
  obtain ⟨a, _, hga⟩ := optMap_mem _ _ _ _ hres hmem
  cases hst : station_table env cfg a catalog (scans a) with
  | none => rw [hst] at hga; simp at hga
  | some tb =>
    rw [hst] at hga
    simp only [Option.some.injEq, Prod.mk.injEq] at hga
    obtain ⟨rfl, rfl⟩ := hga
    have hlen := optMap_length _ _ _ hst
    rw [hagree] at hlen
    exact hlen

/-- Witness for C6: a two-station day in which both scans are low-signal
rejected; each table still has one (null) row per cataloged scan. -/
theorem C6_row_count_witness :
    ([rejectedRow ts1000 fnameA] : List FluxRow).length = (catFnames cCat6 "A").length :=
  C6_row_count ["A", "B"] (catFnames cCat6) cEnvBad cCfg cFpath cListdir6 cCat6
    [("A", [rejectedRow ts1000 fnameA]), ("B", [rejectedRow ts1001 fnameBnear])]
    "A" [rejectedRow ts1000 fnameA]
    (by decide) (by decide)
    (by decide) (by decide)

/-- C7 (code-bug evaluation): for the filename `20240101_123456.nc`, whose
basename begins with the timestamp `20240101_123456` (12:34:56), the pipeline
slices the first 14 characters (`'20240101_12345'`) before parsing with
`'%Y%m%d_%H%M%S'` (lines 308-309 and 465), so the cataloged and row timestamp
is 12:34:05 -- the second digit of the seconds field is lost, contradicting
the claim that the full encoded time is kept. -/
theorem C7_seconds_truncation_eval :
    strptime_YmdHMS (strSlice (basename "res/20240101/A/so2/20240101_123456.nc") 14)
      = some (Timestamp.mk 2024 1 1 12 34 5) ∧
    get_local_scans ["A"] cFpath cListdir7
      = some [("A", ["res/20240101/A/so2/20240101_123456.nc"],
          [Timestamp.mk 2024 1 1 12 34 5])] ∧
    strptime_YmdHMS "20240101_123456" = some (Timestamp.mk 2024 1 1 12 34 56) ∧
    Timestamp.mk 2024 1 1 12 34 5 ≠ Timestamp.mk 2024 1 1 12 34 56 := by
  decide

/-- C8: a station whose scan directory is missing yields empty filename and
timestamp lists (the `FileNotFoundError` is caught, not propagated), each
station's catalog entry depends only on the listing of its own directory, and
`get_local_scans` is exactly the per-station map of `localScansFor`. -/
theorem C8_missing_dir (fpath : String)
    (listdir listdir2 : String → Option (List String))
    (name name2 : String) (stations : List String)
    (h : listdir (scanDir fpath name) = none)
    (hagree : listdir2 (scanDir fpath name2) = listdir (scanDir fpath name2)) :
    localScansFor fpath listdir name = some (name, [], []) ∧
    localScansFor fpath listdir2 name2 = localScansFor fpath listdir name2 ∧
    get_local_scans stations fpath listdir
      = optMap (localScansFor fpath listdir) stations := by
  refine ⟨?_, ?_, rfl⟩
  · unfold localScansFor
    rw [h]
  · unfold localScansFor
    rw [hagree]

/-- Witness for C8: station B's directory is missing while station A's is
present; B's entry is empty and A's entry is unchanged under a listing
function that differs only away from A's directory. -/
theorem C8_missing_dir_witness :
    localScansFor cFpath cListdir8 "B" = some ("B", [], []) ∧
    localScansFor cFpath cListdir8b "A" = localScansFor cFpath cListdir8 "A" ∧
    get_local_scans ["A", "B"] cFpath cListdir8
      = optMap (localScansFor cFpath cListdir8) ["A", "B"] :=
  C8_missing_dir cFpath cListdir8 cListdir8b "B" "A" ["A", "B"]
    (by decide) (by decide)

/-- C9 (amended): if an analysed scan's nearest candidate passes the window
test but is itself rejected by the quality filter, the pairing is discarded
with no retry against any other candidate: the row is completed directly with
the default altitude and azimuth, a null Pair Station cell, and the
placeholder string `'None'` in the Pair File cell. -/
theorem C9_default_on_rejected_pair (env : Env) (cfg : Config) (name : String)
    (catalog : List CatalogEntry) (scan_fname : String) (t : Timestamp)
    (scan post : ScanData) (peak : ℚ) (nf : String) (nts : Timestamp)
    (altName m : String)
    (hread : env.readScan scan_fname = scan)
    (ht : strptime_YmdHMS (strSlice (basename scan_fname) 14) = some t)
    (hfs : filterScanCfg cfg scan = (post, FilterVerdict.analysed peak))
    (hflag : cfg.scan_pair_flag = true)
    (hnear : find_nearest_scan name t catalog = some (nf, nts, altName))
    (hwin : ((t.toSeconds : ℤ) - (nts.toSeconds : ℤ) : ℚ) < 60 * cfg.scan_pair_time)
    (haltrej : (filterScanCfg cfg (env.readScan nf)).2 = FilterVerdict.rejected m) :
    process_scan env cfg name catalog scan_fname
      = some (analysedRow env cfg name t scan_fname post none "None"
          cfg.default_alt cfg.default_az) := by
  have hrp : resolvePairing env cfg name t catalog peak
      = some (none, "None", cfg.default_alt, cfg.default_az) := by
    simp only [resolvePairing, hflag, hnear, eq_self_iff_true, and_true, if_true]
    rw [if_pos hwin, haltrej]
  simp only [process_scan, hread, hfs, ht, hrp]

/-- Witness for C9 (amended) at the concrete scenario of the counterexample:
candidate 60 s away, low-signal rejected, default-geometry row produced. -/
theorem C9_default_on_rejected_pair_witness :
    process_scan cEnvBbad cCfgPair "A" cCatNear fnameA = some cRow9 :=
  C9_default_on_rejected_pair cEnvBbad cCfgPair "A" cCatNear fnameA ts1000
    goodScan goodScanPost 3 fnameBnear ts1001 "B" "Not enough good spectra"
    (by decide) (by decide)
    (by decide) (by decide)
    (by decide) (by decide)
    (by decide)

/-- C9 counterexample to the claim as stated: with an in-window candidate
(60 s < 5 min) that the quality filter rejects, the produced row's Pair
Station cell is indeed null, but its Pair File cell is *not* empty -- it holds
the placeholder string `'None'`, because line 385 applies `os.path.split` to
the string `'None'` set at line 349. -/
theorem C9_pair_file_placeholder_counterexample :
    tsDelta ts1000 ts1001 = 60 ∧
    (filterScanCfg cCfgPair (cEnvBbad.readScan fnameBnear)).2
      = FilterVerdict.rejected "Not enough good spectra" ∧
    process_scan cEnvBbad cCfgPair "A" cCatNear fnameA = some cRow9 ∧
    cRow9.pairStation = none ∧
    cRow9.pairFile = some "None" ∧
    ¬ (cRow9.pairFile = none) := by
  decide

/-- C10: `filter_scan` is not read-only on its input: whenever the scan passes
the low-signal gate it writes the `filter` keep-mask column into the caller's
dataset (line 417), before the plume-count check, so even a scan subsequently
rejected for insufficient plume samples is modified; the `angle`, `SO2`,
`SO2_err` and `int_av` columns are unchanged by every call. -/
theorem C10_filter_writes_mask (scan : ScanData)
    (min_scd max_scd min_int max_int plume_scd good_scan_lim : ℚ)
    (sg_window sg_polyn : ℕ) :
    ((filter_scan scan min_scd max_scd min_int max_int plume_scd good_scan_lim
        sg_window sg_polyn).1.angle = scan.angle ∧
      (filter_scan scan min_scd max_scd min_int max_int plume_scd good_scan_lim
        sg_window sg_polyn).1.so2 = scan.so2 ∧
      (filter_scan scan min_scd max_scd min_int max_int plume_scd good_scan_lim
        sg_window sg_polyn).1.so2_err = scan.so2_err ∧
      (filter_scan scan min_scd max_scd min_int max_int plume_scd good_scan_lim
        sg_window sg_polyn).1.int_av = scan.int_av) ∧
    (¬ lowSignalGate scan min_scd max_scd min_int max_int good_scan_lim →
      (filter_scan scan min_scd max_scd min_int max_int plume_scd good_scan_lim
        sg_window sg_polyn).1.filter
        = some (keepMask scan min_scd max_scd min_int max_int)) := by
  by_cases hg : lowSignalGate scan min_scd max_scd min_int max_int good_scan_lim
  · have h1 : (filter_scan scan min_scd max_scd min_int max_int plume_scd good_scan_lim
        sg_window sg_polyn).1 = scan := by
      simp only [filter_scan, if_pos hg]
    rw [h1]
    exact ⟨⟨rfl, rfl, rfl, rfl⟩, fun h => absurd hg h⟩
  · have h1 : (filter_scan scan min_scd max_scd min_int max_int plume_scd good_scan_lim
        sg_window sg_polyn).1
        = { scan with filter := some (keepMask scan min_scd max_scd min_int max_int) } := by
      simp only [filter_scan, if_neg hg]
      split
      · rfl
      · split
        · rfl
        · rfl
    rw [h1]
    exact ⟨⟨rfl, rfl, rfl, rfl⟩, fun _ => rfl⟩

/-- Witness for C10 at a concrete scan: with `plume_scd = 0` the scan passes
the gate, is rejected for insufficient plume samples, and its dataset has
nevertheless been given the keep-mask `filter` column. -/
theorem C10_filter_writes_mask_witness :
    (¬ lowSignalGate goodScan (-(10 ^ 17)) (10 ^ 20) 500 60000 (1 / 5)) ∧
    (filter_scan goodScan (-(10 ^ 17)) (10 ^ 20) 500 60000 0 (1 / 5) 1 0).1.filter
      = some (keepMask goodScan (-(10 ^ 17)) (10 ^ 20) 500 60000) ∧
    (filter_scan goodScan (-(10 ^ 17)) (10 ^ 20) 500 60000 0 (1 / 5) 1 0).2
      = FilterVerdict.rejected "Not enough plume spectra" :=
  ⟨by decide,
   (C10_filter_writes_mask goodScan (-(10 ^ 17)) (10 ^ 20) 500 60000 0 (1 / 5) 1 0).2
     (by decide),
   by decide⟩

end OpenSO2

/-! Sanity checks of the embedding on concrete values (the Savitzky-Golay
coefficients for windows 1/3/5 match the published exact values; the calendar
arithmetic steps correctly over month, leap-day and year boundaries; the
timestamp parser behaves as `strptime` does on 15- and 14-character inputs). -/

example : OpenSO2.daysFromCivil 2024 1 2 = OpenSO2.daysFromCivil 2024 1 1 + 1 := by decide
example : OpenSO2.daysFromCivil 2024 3 1 = OpenSO2.daysFromCivil 2024 2 29 + 1 := by decide
example : OpenSO2.daysFromCivil 2023 3 1 = OpenSO2.daysFromCivil 2023 2 28 + 1 := by decide
example : OpenSO2.daysFromCivil 2024 1 1 = OpenSO2.daysFromCivil 2023 12 31 + 1 := by decide
example : OpenSO2.strptime_YmdHMS "20240101_123456" =
    some (OpenSO2.Timestamp.mk 2024 1 1 12 34 56) := by decide
example : OpenSO2.strptime_YmdHMS "20240101_12345" =
    some (OpenSO2.Timestamp.mk 2024 1 1 12 34 5) := by decide
example : OpenSO2.strptime_YmdHMS "2024010_123456" = none := by decide
example : OpenSO2.strptime_YmdHMS "20241301_123456" = none := by decide
example : OpenSO2.basename "res/A/so2/20240101_123456.nc" = "20240101_123456.nc" := by decide
example : OpenSO2.basename "None" = "None" := by decide
example : OpenSO2.argmaxIdx [1, 5, 5, 2] = 1 := by decide
example : OpenSO2.argminIdx (0 : ℚ) [3, 1, 1, 2] = 1 := by decide
example : OpenSO2.savgolCoeffs 1 0 = [1] := by decide
example : OpenSO2.savgolCoeffs 3 1 = [1/3, 1/3, 1/3] := by decide
example : OpenSO2.savgolCoeffs 5 2 = [-3/35, 12/35, 17/35, 12/35, -3/35] := by decide
example : OpenSO2.savgol 1 0 [2, 8, 3] = [2, 8, 3] := by decide
example : OpenSO2.savgol 3 1 [3, 3, 3, 6] = [3, 3, 4, 5] := by decide
